import Mathlib

/-!
Verification development for the Android native triangle application
(`app/src/main/cpp/main.cpp`).  The C++ code drives the EGL / OpenGL ES
platform layer; we embed it shallowly: every GL / EGL entry point the code
invokes becomes a constructor of the `Call` trace alphabet, the outcomes the
platform layer may produce (handles returned, success flags) are collected in
environment records, and each C++ member function becomes a Lean function
from environment and explicit object state to result, updated state and the
list of platform calls it performs, in program order.
-/

/-- One call into the GL / EGL platform layer, with the arguments that matter
for the properties under study.  Handles are modelled as `Nat`, with `0`
playing the role of the invalid sentinels (`EGL_NO_DISPLAY`, `EGL_NO_SURFACE`,
`EGL_NO_CONTEXT`, and the GL object name `0`). -/
inductive Call where
  | eglGetDisplay
  | eglInitDisplay
  | eglChooseConfig
  | eglCreateWindowSurface
  | eglCreateContext
  | eglMakeCurrent (surf ctx : Nat)
  | eglDestroyContext (ctx : Nat)
  | eglDestroySurface (surf : Nat)
  | eglTerminate
  | eglSwapBuffers (surf : Nat)
  | glCreateShader (ty : Nat)
  | glShaderSource (sh : Nat)
  | glCompileShader (sh : Nat)
  | glGetShaderInfoLog (sh : Nat)
  | glDeleteShader (sh : Nat)
  | glCreateProgram
  | glAttachShader (p sh : Nat)
  | glLinkProgram (p : Nat)
  | glGetProgramInfoLog (p : Nat)
  | glDeleteProgram (p : Nat)
  | glUseProgram (p : Nat)
  | glGenVertexArrays
  | glGenBuffers
  | glBindVertexArray (v : Nat)
  | glBindBuffer (b : Nat)
  | glBufferData
  | glVertexAttribPointer
  | glEnableVertexAttribArray
  | glDeleteBuffers (b : Nat)
  | glDeleteVertexArrays (v : Nat)
  | glDrawArrays (n : Nat)
  | glClearColor
  | glClear
  | logError
deriving DecidableEq, Repr

/-- The two shader stage types passed to `glCreateShader`
(`GL_VERTEX_SHADER`, `GL_FRAGMENT_SHADER`). -/
inductive ShaderType where
  | vertex
  | fragment
deriving DecidableEq, Repr

/-- Encoding of the stage type as the `Nat` argument recorded in the trace. -/
def ShaderType.code : ShaderType → Nat
  | .vertex => 0
  | .fragment => 1

/-- Outcomes the GL driver produces during `ShaderProgram::initialize`:
the shader names returned by the two `glCreateShader` calls, the program name
returned by `glCreateProgram`, and the compile / link status flags reported
by `glGetShaderiv` / `glGetProgramiv`. -/
structure ShaderEnv where
  vertexId : Nat
  fragmentId : Nat
  programId : Nat
  vertexCompiles : Bool
  fragmentCompiles : Bool
  linkOk : Bool
deriving DecidableEq, Repr

/-- Shader name returned by `glCreateShader` for the given stage. -/
def ShaderEnv.idOf (env : ShaderEnv) : ShaderType → Nat
  | .vertex => env.vertexId
  | .fragment => env.fragmentId

/-- Compile status the driver reports for the given stage. -/
def ShaderEnv.compiles (env : ShaderEnv) : ShaderType → Bool
  | .vertex => env.vertexCompiles
  | .fragment => env.fragmentCompiles

/-- Model of `ShaderProgram::compileShader`: creates a shader object, sources and
compiles it; on compile failure it fetches the info log, logs the diagnostic,
deletes the shader object and returns `0`; on success it returns the shader
name.  Result: (returned shader name, platform calls in order). -/
def ShaderProgram.compileShader (env : ShaderEnv) (ty : ShaderType) :
    Nat × List Call :=
  let shader := env.idOf ty
  let pre := [Call.glCreateShader ty.code, Call.glShaderSource shader,
              Call.glCompileShader shader]
  if env.compiles ty then
    (shader, pre)
  else
    (0, pre ++ [Call.glGetShaderInfoLog shader, Call.logError,
                Call.glDeleteShader shader])

/-- Model of `ShaderProgram::initialize`: compiles the vertex stage, then the fragment
stage; if either returned `0` it fails at once.  Otherwise it creates a
program, attaches both stages, links, deletes both stage objects, and checks
the link status, deleting the program and zeroing `mProgramId` on link
failure.  Takes and returns the `mProgramId` member.
Result: (return value, new `mProgramId`, platform calls in order). -/
def ShaderProgram.initializeFn (env : ShaderEnv) (pid : Nat) :
    Bool × Nat × List Call :=
  let v := ShaderProgram.compileShader env .vertex
  let f := ShaderProgram.compileShader env .fragment
  if v.1 = 0 ∨ f.1 = 0 then
    (false, pid, v.2 ++ f.2)
  else
    let p := env.programId
    let t := v.2 ++ f.2 ++
      [Call.glCreateProgram, Call.glAttachShader p v.1,
       Call.glAttachShader p f.1, Call.glLinkProgram p,
       Call.glDeleteShader v.1, Call.glDeleteShader f.1]
    if env.linkOk then
      (true, p, t)
    else
      (false, 0, t ++ [Call.glGetProgramInfoLog p, Call.logError,
                       Call.glDeleteProgram p])

/-- Model of `ShaderProgram::use`: binds the program unconditionally. -/
def ShaderProgram.use (pid : Nat) : List Call :=
  [Call.glUseProgram pid]

example : (ShaderProgram.initializeFn ⟨3, 4, 7, true, true, true⟩ 0) =
    (true, 7, [Call.glCreateShader 0, Call.glShaderSource 3,
      Call.glCompileShader 3, Call.glCreateShader 1, Call.glShaderSource 4,
      Call.glCompileShader 4, Call.glCreateProgram, Call.glAttachShader 7 3,
      Call.glAttachShader 7 4, Call.glLinkProgram 7, Call.glDeleteShader 3,
      Call.glDeleteShader 4]) := by decide

example : (ShaderProgram.initializeFn ⟨3, 4, 7, true, false, true⟩ 0).1 =
    false := by decide

/-- GL object names produced by `glGenVertexArrays` / `glGenBuffers` during
`TriangleMesh::initialize` (`0` models allocation failure). -/
structure MeshEnv where
  vaoId : Nat
  vboId : Nat
deriving DecidableEq, Repr

/-- Model of `TriangleMesh::initialize`: generates one vertex array and one buffer,
binds them, uploads the fixed vertex data, configures attribute 0 and
unbinds; succeeds iff both names are non-zero.
Result: (return value, new `mVAO`, new `mVBO`, platform calls in order). -/
def TriangleMesh.initializeFn (env : MeshEnv) : Bool × Nat × Nat × List Call :=
  let vao := env.vaoId
  let vbo := env.vboId
  (vao != 0 && vbo != 0, vao, vbo,
   [Call.glGenVertexArrays, Call.glGenBuffers, Call.glBindVertexArray vao,
    Call.glBindBuffer vbo, Call.glBufferData, Call.glVertexAttribPointer,
    Call.glEnableVertexAttribArray, Call.glBindVertexArray 0])

/-- Model of `TriangleMesh::draw`: binds the vertex array, draws 3 vertices as
triangles, unbinds. -/
def TriangleMesh.draw (vao : Nat) : List Call :=
  [Call.glBindVertexArray vao, Call.glDrawArrays 3, Call.glBindVertexArray 0]

/-- Model of `TriangleMesh::cleanup`: deletes the buffer if non-zero and zeroes it,
then deletes the vertex array if non-zero and zeroes it.
Result: (new `mVAO`, new `mVBO`, platform calls in order). -/
def TriangleMesh.cleanup (vao vbo : Nat) : Nat × Nat × List Call :=
  let step1 : Nat × List Call :=
    if vbo ≠ 0 then (0, [Call.glDeleteBuffers vbo]) else (vbo, [])
  let step2 : Nat × List Call :=
    if vao ≠ 0 then (0, [Call.glDeleteVertexArrays vao]) else (vao, [])
  (step2.1, step1.1, step1.2 ++ step2.2)

/-- The handle-carrying data members of `EGLRenderer`, together with the
members of its owned `ShaderProgram` and `TriangleMesh` sub-objects.
`0` stands for the invalid sentinels. -/
structure RendererState where
  mDisplay : Nat
  mSurface : Nat
  mContext : Nat
  mProgramId : Nat
  mVAO : Nat
  mVBO : Nat
deriving DecidableEq, Repr

/-- The state a freshly constructed `EGLRenderer` starts in: every handle at
its invalid sentinel (the C++ in-class member initializers). -/
def RendererState.start : RendererState :=
  ⟨0, 0, 0, 0, 0, 0⟩

/-- Outcomes the EGL / GL platform layer produces during
`EGLRenderer::initialize`: the display handle returned by `eglGetDisplay`
(`0` models `EGL_NO_DISPLAY`), the success of `eglInitialize`, the result and
config count of `eglChooseConfig`, the handles returned by
`eglCreateWindowSurface` and `eglCreateContext` (`0` models the invalid
sentinels), the success of `eglMakeCurrent`, and the driver outcomes for the
shader and mesh sub-initializations. -/
structure EGLEnv where
  displayId : Nat
  eglInitOk : Bool
  chooseConfigOk : Bool
  numConfigs : Nat
  surfaceId : Nat
  contextId : Nat
  makeCurrentOk : Bool
  shader : ShaderEnv
  mesh : MeshEnv
deriving DecidableEq, Repr

/-- Model of `EGLRenderer::initialize`: gets and initializes the display, chooses a
config, creates the window surface, creates the context, makes them current,
then initializes the shader program and the triangle mesh; each step returns
`false` at once on failure, leaving whatever was already stored in the
members in place.  Result: (return value, new state, platform calls in
order). -/
def EGLRenderer.initializeFn (env : EGLEnv) (s : RendererState) :
    Bool × RendererState × List Call :=
  let s := { s with mDisplay := env.displayId }
  let t := [Call.eglGetDisplay]
  if s.mDisplay = 0 then (false, s, t) else
  let t := t ++ [Call.eglInitDisplay]
  if !env.eglInitOk then (false, s, t) else
  let t := t ++ [Call.eglChooseConfig]
  if !env.chooseConfigOk || env.numConfigs == 0 then (false, s, t) else
  let s := { s with mSurface := env.surfaceId }
  let t := t ++ [Call.eglCreateWindowSurface]
  if s.mSurface = 0 then (false, s, t) else
  let s := { s with mContext := env.contextId }
  let t := t ++ [Call.eglCreateContext]
  if s.mContext = 0 then (false, s, t) else
  let t := t ++ [Call.eglMakeCurrent s.mSurface s.mContext]
  if !env.makeCurrentOk then (false, s, t) else
  let sh := ShaderProgram.initializeFn env.shader s.mProgramId
  let s := { s with mProgramId := sh.2.1 }
  let t := t ++ sh.2.2
  if !sh.1 then (false, s, t) else
  let mesh := TriangleMesh.initializeFn env.mesh
  let s := { s with mVAO := mesh.2.1, mVBO := mesh.2.2.1 }
  let t := t ++ mesh.2.2.2
  if !mesh.1 then (false, s, t) else
  (true, s, t)

/-- Model of `EGLRenderer::drawFrame`: returns doing nothing when `mDisplay` is the
invalid sentinel; otherwise sets the clear color, clears, uses the shader
program, draws the triangle and swaps buffers. -/
def EGLRenderer.drawFrame (s : RendererState) : List Call :=
  if s.mDisplay = 0 then []
  else
    [Call.glClearColor, Call.glClear] ++ ShaderProgram.use s.mProgramId ++
      TriangleMesh.draw s.mVAO ++ [Call.eglSwapBuffers s.mSurface]

/-- Model of `EGLRenderer::cleanup`: cleans up the mesh, then, when `mDisplay` is
valid, unbinds with `eglMakeCurrent(display, EGL_NO_SURFACE, EGL_NO_SURFACE,
EGL_NO_CONTEXT)`, destroys the context if valid, destroys the surface if
valid, terminates the display, resetting each handle it released to its
sentinel.  `mProgramId` is untouched (the `ShaderProgram` member is released
by its own destructor).  Result: (new state, platform calls in order). -/
def EGLRenderer.cleanup (s : RendererState) : RendererState × List Call :=
  let mc := TriangleMesh.cleanup s.mVAO s.mVBO
  let s := { s with mVAO := mc.1, mVBO := mc.2.1 }
  let t := mc.2.2
  if s.mDisplay = 0 then (s, t) else
  let t := t ++ [Call.eglMakeCurrent 0 0]
  let sc : RendererState × List Call :=
    if s.mContext ≠ 0 then
      ({ s with mContext := 0 }, t ++ [Call.eglDestroyContext s.mContext])
    else (s, t)
  let ss : RendererState × List Call :=
    if sc.1.mSurface ≠ 0 then
      ({ sc.1 with mSurface := 0 },
       sc.2 ++ [Call.eglDestroySurface sc.1.mSurface])
    else sc
  ({ ss.1 with mDisplay := 0 }, ss.2 ++ [Call.eglTerminate])

/-- Model of `EGLRenderer::isInitialized`: true iff `mDisplay` is not the invalid
sentinel. -/
def EGLRenderer.isInitialized (s : RendererState) : Bool :=
  s.mDisplay != 0

/-- Model of `~EGLRenderer`: runs `cleanup()`, then the member destructors in reverse
declaration order: `~TriangleMesh` runs `cleanup()` on the mesh members, and
`~ShaderProgram` deletes the program if its name is non-zero.
Result: platform calls in order. -/
def EGLRenderer.destruct (s : RendererState) : List Call :=
  let c := EGLRenderer.cleanup s
  let mc := TriangleMesh.cleanup c.1.mVAO c.1.mVBO
  c.2 ++ mc.2.2 ++
    (if c.1.mProgramId ≠ 0 then [Call.glDeleteProgram c.1.mProgramId] else [])

/-- An all-success platform environment, used for concrete test runs. -/
def EGLEnv.good : EGLEnv :=
  ⟨1, true, true, 1, 2, 3, true, ⟨4, 5, 6, true, true, true⟩, ⟨7, 8⟩⟩

example : (EGLRenderer.initializeFn EGLEnv.good RendererState.start).1 =
    true := by decide

example : (EGLRenderer.initializeFn EGLEnv.good RendererState.start).2.1 =
    ⟨1, 2, 3, 6, 7, 8⟩ := by decide

example :
    (EGLRenderer.cleanup
      (EGLRenderer.initializeFn EGLEnv.good RendererState.start).2.1).1 =
    ⟨0, 0, 0, 6, 0, 0⟩ := by decide

/-- The lifecycle commands `NativeApp::onAppCmd` switches on:
`APP_CMD_INIT_WINDOW`, `APP_CMD_TERM_WINDOW`, and every other value of the
command integer collapsed into `other`. -/
inductive AppCmd where
  | initWindow
  | termWindow
  | other
deriving DecidableEq, Repr

/-- One notification delivered to `NativeApp::onAppCmd`: the command,
whether `mApp->window` is non-null at that moment, and the platform outcomes
an `EGLRenderer::initialize` triggered by this notification would see. -/
structure AppEvent where
  cmd : AppCmd
  windowPresent : Bool
  env : EGLEnv
deriving DecidableEq, Repr

/-- Model of `NativeApp::onAppCmd`: on `APP_CMD_INIT_WINDOW` with a window present,
replaces `mRenderer` with a freshly constructed `EGLRenderer` (destroying
any previous one) and calls `initialize()`, ignoring its result; on
`APP_CMD_TERM_WINDOW` with a renderer present, calls `cleanup()` and then
destroys the renderer; every other command leaves the state untouched.
Result: (new `mRenderer`, platform calls in order). -/
def NativeApp.onAppCmd (e : AppEvent) (r : Option RendererState) :
    Option RendererState × List Call :=
  match e.cmd with
  | .initWindow =>
      if e.windowPresent then
        let told := match r with
          | some s => EGLRenderer.destruct s
          | none => []
        let ini := EGLRenderer.initializeFn e.env RendererState.start
        (some ini.2.1, told ++ ini.2.2)
      else (r, [])
  | .termWindow =>
      match r with
      | some s =>
          let c := EGLRenderer.cleanup s
          (none, c.2 ++ EGLRenderer.destruct c.1)
      | none => (none, [])
  | .other => (r, [])

/-- Folds a sequence of notifications through `NativeApp::onAppCmd`,
keeping only the renderer state. -/
def NativeApp.processCmds (events : List AppEvent)
    (r : Option RendererState) : Option RendererState :=
  events.foldl (fun acc e => (NativeApp.onAppCmd e acc).1) r

/-- The guard of the render step in `NativeApp::run`:
`mRenderer && mRenderer->isInitialized()`. -/
def NativeApp.rendersFrame (r : Option RendererState) : Bool :=
  match r with
  | some s => EGLRenderer.isInitialized s
  | none => false

/-- The platform calls one iteration of the `NativeApp::run` loop body issues
after draining events: `drawFrame()` when the guard holds, nothing
otherwise. -/
def NativeApp.renderStep (r : Option RendererState) : List Call :=
  match r with
  | some s => if EGLRenderer.isInitialized s then EGLRenderer.drawFrame s
              else []
  | none => []

/-- The conjunction of the EGL-layer success conditions of
`EGLRenderer::initialize`: everything up to and including `eglMakeCurrent`,
before the shader and mesh steps. -/
def EGLEnv.eglPhaseOk (env : EGLEnv) : Bool :=
  env.displayId != 0 && env.eglInitOk &&
    (env.chooseConfigOk && env.numConfigs != 0) &&
    env.surfaceId != 0 && env.contextId != 0 && env.makeCurrentOk

/-- Selects the EGL teardown calls of a trace: the unbind
(`eglMakeCurrent`), `eglDestroyContext`, `eglDestroySurface` and
`eglTerminate`. -/
def Call.isTeardown : Call → Bool
  | .eglMakeCurrent _ _ => true
  | .eglDestroyContext _ => true
  | .eglDestroySurface _ => true
  | .eglTerminate => true
  | _ => false

/-- The renderer states an `EGLRenderer` instance can be observed in:
the freshly constructed state, and anything produced from a reachable state
by `initialize` or `cleanup`. -/
inductive Reachable : RendererState → Prop where
  | start : Reachable RendererState.start
  | step (env : EGLEnv) {s : RendererState} (h : Reachable s) :
      Reachable (EGLRenderer.initializeFn env s).2.1
  | down {s : RendererState} (h : Reachable s) :
      Reachable (EGLRenderer.cleanup s).1

/-- A platform environment in which `eglCreateContext` fails
(returns `EGL_NO_CONTEXT`) and every earlier step succeeds. -/
def EGLEnv.ctxFail : EGLEnv :=
  ⟨1, true, true, 1, 2, 0, true, ⟨4, 5, 6, true, true, true⟩, ⟨7, 8⟩⟩

/-- The renderer state after `initialize` under `EGLEnv.ctxFail`: display
and surface handles valid, context handle at its sentinel. -/
def mixedState : RendererState :=
  ⟨1, 2, 0, 0, 0, 0⟩

example : (EGLRenderer.initializeFn EGLEnv.ctxFail RendererState.start).2.1 =
    mixedState := by decide

theorem mixedState_reachable : Reachable mixedState := by
  have h := Reachable.step EGLEnv.ctxFail Reachable.start
  simpa [EGLRenderer.initializeFn, EGLEnv.ctxFail, RendererState.start,
    ShaderProgram.initializeFn, ShaderProgram.compileShader, mixedState] using h

/-- The state `EGLRenderer::cleanup` leaves behind: mesh handles zeroed,
`mDisplay` always reset, surface and context reset only when the display
guard was taken, `mProgramId` untouched. -/
theorem cleanup_fst (s : RendererState) :
    (EGLRenderer.cleanup s).1 =
      ⟨0, if s.mDisplay = 0 then s.mSurface else 0,
       if s.mDisplay = 0 then s.mContext else 0, s.mProgramId, 0, 0⟩ := by
  rcases s with ⟨d, su, c, p, va, vb⟩
  by_cases hd : d = 0 <;>
    by_cases hc : c = 0 <;>
      by_cases hs : su = 0 <;>
        by_cases hv : va = 0 <;>
          by_cases hb : vb = 0 <;>
            simp [EGLRenderer.cleanup, TriangleMesh.cleanup, hd, hc, hs, hv,
              hb]

/-- A second `EGLRenderer::cleanup` performs no platform calls at all. -/
theorem cleanup_cleanup_snd (s : RendererState) :
    (EGLRenderer.cleanup (EGLRenderer.cleanup s).1).2 = [] := by
  rw [cleanup_fst]
  simp [EGLRenderer.cleanup, TriangleMesh.cleanup]

/-- Claim C4: calling cleanup twice in a row, on `EGLRenderer` and on
`TriangleMesh`, yields the same observable state as calling it once (the
second call moreover performs no platform calls), and cleanup is safe from
any state, including the freshly constructed one, where it performs no
platform calls at all. -/
theorem C4_cleanup_idempotent (s : RendererState) (vao vbo : Nat) :
    (EGLRenderer.cleanup (EGLRenderer.cleanup s).1).1 =
        (EGLRenderer.cleanup s).1 ∧
    (EGLRenderer.cleanup (EGLRenderer.cleanup s).1).2 = [] ∧
    TriangleMesh.cleanup (TriangleMesh.cleanup vao vbo).1
        (TriangleMesh.cleanup vao vbo).2.1 =
      ((TriangleMesh.cleanup vao vbo).1,
       (TriangleMesh.cleanup vao vbo).2.1, []) ∧
    EGLRenderer.cleanup RendererState.start = (RendererState.start, []) := by
  refine ⟨?_, cleanup_cleanup_snd s, ?_, ?_⟩
  · simp [cleanup_fst]
  · by_cases hv : vao = 0 <;> by_cases hb : vbo = 0 <;>
      simp [TriangleMesh.cleanup, hv, hb]
  · simp [EGLRenderer.cleanup, TriangleMesh.cleanup, RendererState.start]

/-- Claim C5: if either shader stage fails to compile,
`ShaderProgram::initialize` returns `false` without creating a program or
issuing any link call, the diagnostic of the failed stage is fetched and logged
and its shader object is deleted; conversely, a link call occurs only when
both stages compiled successfully. -/
theorem C5_compile_failure_no_link (env : ShaderEnv) (pid : Nat) :
    ((env.vertexCompiles = false ∨ env.fragmentCompiles = false) →
      (ShaderProgram.initializeFn env pid).1 = false ∧
      Call.glCreateProgram ∉ (ShaderProgram.initializeFn env pid).2.2 ∧
      (∀ p, Call.glLinkProgram p ∉ (ShaderProgram.initializeFn env pid).2.2) ∧
      Call.logError ∈ (ShaderProgram.initializeFn env pid).2.2 ∧
      (env.vertexCompiles = false →
        Call.glGetShaderInfoLog env.vertexId ∈
            (ShaderProgram.initializeFn env pid).2.2 ∧
        Call.glDeleteShader env.vertexId ∈
            (ShaderProgram.initializeFn env pid).2.2) ∧
      (env.fragmentCompiles = false →
        Call.glGetShaderInfoLog env.fragmentId ∈
            (ShaderProgram.initializeFn env pid).2.2 ∧
        Call.glDeleteShader env.fragmentId ∈
            (ShaderProgram.initializeFn env pid).2.2)) ∧
    ((∃ p, Call.glLinkProgram p ∈ (ShaderProgram.initializeFn env pid).2.2) →
      env.vertexCompiles = true ∧ env.fragmentCompiles = true) := by
  rcases env with ⟨vi, fi, pi, vc, fc, lo⟩
  cases vc <;> cases fc <;> cases lo <;>
    simp [ShaderProgram.initializeFn, ShaderProgram.compileShader,
      ShaderEnv.compiles, ShaderEnv.idOf]

/-- Witness for C5 at a concrete environment whose fragment stage fails. -/
theorem C5_compile_failure_no_link_witness :
    (ShaderProgram.initializeFn ⟨3, 4, 7, true, false, true⟩ 0).1 = false ∧
    Call.glCreateProgram ∉
      (ShaderProgram.initializeFn ⟨3, 4, 7, true, false, true⟩ 0).2.2 :=
  ⟨((C5_compile_failure_no_link ⟨3, 4, 7, true, false, true⟩ 0).1
      (Or.inr rfl)).1,
   ((C5_compile_failure_no_link ⟨3, 4, 7, true, false, true⟩ 0).1
      (Or.inr rfl)).2.1⟩

/-- Claim C10: when exactly one stage compiles, `ShaderProgram::initialize`
returns `false`, the shader object of the failed stage is deleted, and the
shader object of the successfully compiled stage is never deleted during the
call.  The hypothesis reflects that GL returns distinct names for the two
shader objects. -/
theorem C10_surviving_stage_not_deleted (env : ShaderEnv) (pid : Nat)
    (hne : env.vertexId ≠ env.fragmentId) :
    ((env.vertexCompiles = true ∧ env.fragmentCompiles = false) →
      (ShaderProgram.initializeFn env pid).1 = false ∧
      Call.glDeleteShader env.vertexId ∉
          (ShaderProgram.initializeFn env pid).2.2 ∧
      Call.glDeleteShader env.fragmentId ∈
          (ShaderProgram.initializeFn env pid).2.2) ∧
    ((env.vertexCompiles = false ∧ env.fragmentCompiles = true) →
      (ShaderProgram.initializeFn env pid).1 = false ∧
      Call.glDeleteShader env.fragmentId ∉
          (ShaderProgram.initializeFn env pid).2.2 ∧
      Call.glDeleteShader env.vertexId ∈
          (ShaderProgram.initializeFn env pid).2.2) := by
  rcases env with ⟨vi, fi, pi, vc, fc, lo⟩
  simp only [ne_eq] at hne
  cases vc <;> cases fc <;>
    simp [ShaderProgram.initializeFn, ShaderProgram.compileShader,
      ShaderEnv.compiles, ShaderEnv.idOf, hne, Ne.symm hne]

/-- Claim C6: when framebuffer configuration negotiation fails or yields
zero configs, `EGLRenderer::initialize` returns `false`, never calls
`eglCreateWindowSurface` or `eglCreateContext`, and leaves the surface and
context members untouched. -/
theorem C6_no_config_no_surface (env : EGLEnv) (s : RendererState)
    (h : env.chooseConfigOk = false ∨ env.numConfigs = 0) :
    (EGLRenderer.initializeFn env s).1 = false ∧
    Call.eglCreateWindowSurface ∉ (EGLRenderer.initializeFn env s).2.2 ∧
    Call.eglCreateContext ∉ (EGLRenderer.initializeFn env s).2.2 ∧
    (EGLRenderer.initializeFn env s).2.1.mSurface = s.mSurface ∧
    (EGLRenderer.initializeFn env s).2.1.mContext = s.mContext := by
  rcases env with ⟨di, ei, cc, nc, si, ci, mc, sh, me⟩
  by_cases hd : di = 0 <;> cases ei <;>
    rcases h with h | h <;> subst h <;>
      simp [EGLRenderer.initializeFn, hd]

/-- Witness for C6: negotiation reports zero configs in an otherwise
successful environment. -/
theorem C6_no_config_no_surface_witness :
    (EGLRenderer.initializeFn ⟨1, true, true, 0, 2, 3, true,
        ⟨4, 5, 6, true, true, true⟩, ⟨7, 8⟩⟩ RendererState.start).1 = false ∧
    Call.eglCreateWindowSurface ∉
      (EGLRenderer.initializeFn ⟨1, true, true, 0, 2, 3, true,
        ⟨4, 5, 6, true, true, true⟩, ⟨7, 8⟩⟩ RendererState.start).2.2 :=
  ⟨(C6_no_config_no_surface _ RendererState.start (Or.inr rfl)).1,
   (C6_no_config_no_surface _ RendererState.start (Or.inr rfl)).2.1⟩

/-- The trace of `ShaderProgram::initialize` always begins by creating the
vertex stage object. -/
theorem shader_trace_has_createShader (env : ShaderEnv) (pid : Nat) :
    Call.glCreateShader 0 ∈ (ShaderProgram.initializeFn env pid).2.2 := by
  rcases env with ⟨vi, fi, pi, vc, fc, lo⟩
  by_cases h : vi = 0 ∨ fi = 0 <;>
    cases vc <;> cases fc <;> cases lo <;>
      simp [ShaderProgram.initializeFn, ShaderProgram.compileShader,
        ShaderEnv.compiles, ShaderEnv.idOf, ShaderType.code, h]

/-- The trace of `ShaderProgram::initialize` contains no mesh-allocation
call and no EGL teardown call. -/
theorem shader_trace_no_mesh_egl (env : ShaderEnv) (pid : Nat) :
    Call.glGenVertexArrays ∉ (ShaderProgram.initializeFn env pid).2.2 ∧
    (∀ a b, Call.eglMakeCurrent a b ∉ (ShaderProgram.initializeFn env pid).2.2) ∧
    (∀ c, Call.eglDestroyContext c ∉ (ShaderProgram.initializeFn env pid).2.2) ∧
    (∀ c, Call.eglDestroySurface c ∉ (ShaderProgram.initializeFn env pid).2.2) ∧
    Call.eglTerminate ∉ (ShaderProgram.initializeFn env pid).2.2 := by
  rcases env with ⟨vi, fi, pi, vc, fc, lo⟩
  by_cases h : vi = 0 ∨ fi = 0 <;>
    cases vc <;> cases fc <;> cases lo <;>
      simp [ShaderProgram.initializeFn, ShaderProgram.compileShader,
        ShaderEnv.compiles, ShaderEnv.idOf, ShaderType.code, h]

/-- When an EGL-layer step of `EGLRenderer::initialize` fails, the call
returns `false`, no shader or mesh call is issued, and no teardown call is
issued. -/
theorem initialize_egl_fail (env : EGLEnv) (s : RendererState)
    (h : env.eglPhaseOk = false) :
    (EGLRenderer.initializeFn env s).1 = false ∧
    (∀ n, Call.glCreateShader n ∉ (EGLRenderer.initializeFn env s).2.2) ∧
    Call.glGenVertexArrays ∉ (EGLRenderer.initializeFn env s).2.2 ∧
    (∀ c, Call.eglDestroyContext c ∉ (EGLRenderer.initializeFn env s).2.2) ∧
    (∀ c, Call.eglDestroySurface c ∉ (EGLRenderer.initializeFn env s).2.2) ∧
    Call.eglTerminate ∉ (EGLRenderer.initializeFn env s).2.2 ∧
    Call.eglMakeCurrent 0 0 ∉ (EGLRenderer.initializeFn env s).2.2 := by
  rcases env with ⟨di, ei, cc, nc, si, ci, mc, sh, me⟩
  by_cases hd : di = 0 <;> cases ei <;> cases cc <;> by_cases hn : nc = 0 <;>
    by_cases hs : si = 0 <;> by_cases hc : ci = 0 <;> cases mc <;>
      (simp_all [EGLRenderer.initializeFn, EGLEnv.eglPhaseOk]; try omega)

/-- When every EGL-layer step of `EGLRenderer::initialize` succeeds, the
call stores the three EGL handles, runs the shader initialization, then the
mesh initialization only if the shader succeeded, and its trace is the six
EGL calls followed by the sub-initialization traces. -/
theorem initialize_egl_ok (env : EGLEnv) (s : RendererState)
    (h : env.eglPhaseOk = true) :
    EGLRenderer.initializeFn env s =
      (if (ShaderProgram.initializeFn env.shader s.mProgramId).1 then
        ((TriangleMesh.initializeFn env.mesh).1,
         ⟨env.displayId, env.surfaceId, env.contextId,
          (ShaderProgram.initializeFn env.shader s.mProgramId).2.1,
          env.mesh.vaoId, env.mesh.vboId⟩,
         [Call.eglGetDisplay, Call.eglInitDisplay, Call.eglChooseConfig,
          Call.eglCreateWindowSurface, Call.eglCreateContext,
          Call.eglMakeCurrent env.surfaceId env.contextId] ++
           (ShaderProgram.initializeFn env.shader s.mProgramId).2.2 ++
           (TriangleMesh.initializeFn env.mesh).2.2.2)
      else
        (false,
         ⟨env.displayId, env.surfaceId, env.contextId,
          (ShaderProgram.initializeFn env.shader s.mProgramId).2.1,
          s.mVAO, s.mVBO⟩,
         [Call.eglGetDisplay, Call.eglInitDisplay, Call.eglChooseConfig,
          Call.eglCreateWindowSurface, Call.eglCreateContext,
          Call.eglMakeCurrent env.surfaceId env.contextId] ++
           (ShaderProgram.initializeFn env.shader s.mProgramId).2.2)) := by
  rcases env with ⟨di, ei, cc, nc, si, ci, mc, sh, me⟩
  rcases me with ⟨vao, vbo⟩
  simp only [EGLEnv.eglPhaseOk, Bool.and_eq_true, bne_iff_ne, ne_eq] at h
  obtain ⟨⟨⟨⟨⟨hd, he⟩, hcn⟩, hs⟩, hc⟩, hm⟩ := h
  subst he
  subst hm
  cases hq : (ShaderProgram.initializeFn sh s.mProgramId).1 <;>
    by_cases hv : vao = 0 <;> by_cases hb : vbo = 0 <;>
      simp_all [EGLRenderer.initializeFn, TriangleMesh.initializeFn]

/-- Claim C9: `EGLRenderer::initialize` performs the EGL context phase
first: if any EGL step fails it returns `false` without any shader or mesh
initialization call; if the EGL phase succeeds it initializes the shader
program (and the mesh only if the shader succeeded), returning `false` on
either failure while keeping the display handle valid; and the whole call
never issues a teardown call (unbind, destroy context, destroy surface,
terminate). -/
theorem C9_context_first_no_teardown (env : EGLEnv) (s : RendererState) :
    (env.eglPhaseOk = false →
      (EGLRenderer.initializeFn env s).1 = false ∧
      (∀ n, Call.glCreateShader n ∉ (EGLRenderer.initializeFn env s).2.2) ∧
      Call.glGenVertexArrays ∉ (EGLRenderer.initializeFn env s).2.2) ∧
    (env.eglPhaseOk = true →
      Call.glCreateShader 0 ∈ (EGLRenderer.initializeFn env s).2.2 ∧
      (EGLRenderer.initializeFn env s).2.1.mDisplay ≠ 0 ∧
      ((ShaderProgram.initializeFn env.shader s.mProgramId).1 = false →
        (EGLRenderer.initializeFn env s).1 = false ∧
        Call.glGenVertexArrays ∉ (EGLRenderer.initializeFn env s).2.2) ∧
      ((ShaderProgram.initializeFn env.shader s.mProgramId).1 = true →
        Call.glGenVertexArrays ∈ (EGLRenderer.initializeFn env s).2.2 ∧
        ((TriangleMesh.initializeFn env.mesh).1 = false →
          (EGLRenderer.initializeFn env s).1 = false))) ∧
    (∀ c, Call.eglDestroyContext c ∉ (EGLRenderer.initializeFn env s).2.2) ∧
    (∀ c, Call.eglDestroySurface c ∉ (EGLRenderer.initializeFn env s).2.2) ∧
    Call.eglTerminate ∉ (EGLRenderer.initializeFn env s).2.2 ∧
    Call.eglMakeCurrent 0 0 ∉ (EGLRenderer.initializeFn env s).2.2 := by
  have hsh1 := shader_trace_has_createShader env.shader s.mProgramId
  have hsh2 := shader_trace_no_mesh_egl env.shader s.mProgramId
  by_cases h : env.eglPhaseOk = true
  · have heq := initialize_egl_ok env s h
    have hp := h
    simp only [EGLEnv.eglPhaseOk, Bool.and_eq_true, bne_iff_ne, ne_eq] at hp
    obtain ⟨⟨⟨⟨⟨hdd, hee⟩, hcn⟩, hss⟩, hcc⟩, hmm⟩ := hp
    refine ⟨fun hf => by simp [h] at hf, fun _ => ?_, ?_, ?_, ?_, ?_⟩ <;>
      rw [heq] <;>
        cases hq : (ShaderProgram.initializeFn env.shader s.mProgramId).1 <;>
          (simp_all [TriangleMesh.initializeFn]; try omega)
  · have hf : env.eglPhaseOk = false := by
      cases hx : env.eglPhaseOk
      · rfl
      · exact absurd hx h
    have hff := initialize_egl_fail env s hf
    exact ⟨fun _ => ⟨hff.1, hff.2.1, hff.2.2.1⟩,
      fun ht => absurd ht h, hff.2.2.2.1, hff.2.2.2.2.1,
      hff.2.2.2.2.2.1, hff.2.2.2.2.2.2⟩

/-- Witness for C9: a failed `eglChooseConfig` environment, where the EGL
phase fails and no shader call is issued. -/
theorem C9_context_first_no_teardown_witness :
    (EGLRenderer.initializeFn ⟨1, true, false, 1, 2, 3, true,
        ⟨4, 5, 6, true, true, true⟩, ⟨7, 8⟩⟩ RendererState.start).1 = false ∧
    (∀ n, Call.glCreateShader n ∉
      (EGLRenderer.initializeFn ⟨1, true, false, 1, 2, 3, true,
        ⟨4, 5, 6, true, true, true⟩, ⟨7, 8⟩⟩ RendererState.start).2.2) :=
  ⟨((C9_context_first_no_teardown _ RendererState.start).1 (by decide)).1,
   ((C9_context_first_no_teardown _ RendererState.start).1 (by decide)).2.1⟩

/-- Witness for C10: vertex stage compiles, fragment stage fails, with
shader names 3 and 4. -/
theorem C10_surviving_stage_not_deleted_witness :
    (ShaderProgram.initializeFn ⟨3, 4, 7, true, false, true⟩ 0).1 = false ∧
    Call.glDeleteShader 3 ∉
      (ShaderProgram.initializeFn ⟨3, 4, 7, true, false, true⟩ 0).2.2 :=
  ⟨((C10_surviving_stage_not_deleted ⟨3, 4, 7, true, false, true⟩ 0
      (by decide)).1 ⟨rfl, rfl⟩).1,
   ((C10_surviving_stage_not_deleted ⟨3, 4, 7, true, false, true⟩ 0
      (by decide)).1 ⟨rfl, rfl⟩).2.1⟩


/-- Lemma: `EGLRenderer::initialize` always stores the display handle the platform
returned in `mDisplay`, whatever happens afterwards. -/
theorem initialize_display_eq (env : EGLEnv) (s : RendererState) :
    (EGLRenderer.initializeFn env s).2.1.mDisplay = env.displayId := by
  by_cases hp : env.eglPhaseOk = true
  · rw [initialize_egl_ok env s hp]
    cases hq : (ShaderProgram.initializeFn env.shader s.mProgramId).1 <;>
      simp [hq]
  · rcases env with ⟨di, ei, cc, nc, si, ci, mc, sh, me⟩
    by_cases hd : di = 0 <;> cases ei <;> cases cc <;>
      by_cases hn : nc = 0 <;> by_cases hs : si = 0 <;>
        by_cases hc : ci = 0 <;> cases mc <;>
          simp_all [EGLRenderer.initializeFn, EGLEnv.eglPhaseOk]

/-- When `eglGetDisplay` already fails, `EGLRenderer::initialize` leaves the
surface and context members untouched. -/
theorem initialize_fail_first (env : EGLEnv) (s : RendererState)
    (h : env.displayId = 0) :
    (EGLRenderer.initializeFn env s).2.1.mSurface = s.mSurface ∧
    (EGLRenderer.initializeFn env s).2.1.mContext = s.mContext := by
  simp [EGLRenderer.initializeFn, h]

/-- Counterexample to claim C1: starting from a fresh renderer, an
initialize in which `eglCreateContext` fails returns `false` yet leaves the
display and surface handles valid while the context handle is invalid — a
mix of valid and invalid sub-resources survives the failed initialize. -/
theorem C1_counterexample :
    (EGLRenderer.initializeFn EGLEnv.ctxFail RendererState.start).1 = false ∧
    (EGLRenderer.initializeFn EGLEnv.ctxFail RendererState.start).2.1.mDisplay
      ≠ 0 ∧
    (EGLRenderer.initializeFn EGLEnv.ctxFail RendererState.start).2.1.mSurface
      ≠ 0 ∧
    (EGLRenderer.initializeFn EGLEnv.ctxFail RendererState.start).2.1.mContext
      = 0 := by
  decide

/-- Claim C1 (amended): a failed `EGLRenderer::initialize` can leave a mix
of valid and invalid handles in place; the all-invalid configuration is
restored only by the explicit `cleanup()` (which the destructor also runs):
after a failed initialize of a fresh renderer followed by `cleanup`, the
display, surface and context handles are simultaneously at their invalid
sentinels. -/
theorem C1_failed_init_cleanup_resets (env : EGLEnv)
    (_h : (EGLRenderer.initializeFn env RendererState.start).1 = false) :
    (EGLRenderer.cleanup
      (EGLRenderer.initializeFn env RendererState.start).2.1).1.mDisplay = 0 ∧
    (EGLRenderer.cleanup
      (EGLRenderer.initializeFn env RendererState.start).2.1).1.mSurface = 0 ∧
    (EGLRenderer.cleanup
      (EGLRenderer.initializeFn env RendererState.start).2.1).1.mContext = 0
    := by
  have h1 := initialize_display_eq env RendererState.start
  by_cases hd : env.displayId = 0
  · have h2 := initialize_fail_first env RendererState.start hd
    have h2s :
        (EGLRenderer.initializeFn env RendererState.start).2.1.mSurface = 0 :=
      by rw [h2.1]; rfl
    have h2c :
        (EGLRenderer.initializeFn env RendererState.start).2.1.mContext = 0 :=
      by rw [h2.2]; rfl
    rw [cleanup_fst]
    simp [h1, hd, h2s, h2c]
  · rw [cleanup_fst]
    simp [h1, hd]

/-- Witness for C1 (amended), at the failing-context environment. -/
theorem C1_failed_init_cleanup_resets_witness :
    (EGLRenderer.initializeFn EGLEnv.ctxFail RendererState.start).1 = false ∧
    (EGLRenderer.cleanup
      (EGLRenderer.initializeFn EGLEnv.ctxFail
        RendererState.start).2.1).1.mDisplay = 0 :=
  ⟨by decide, (C1_failed_init_cleanup_resets EGLEnv.ctxFail (by decide)).1⟩

/-- Counterexample to claim C2: the state left by an initialize whose
`eglCreateContext` failed is reachable and has an invalid rendering
context, yet `drawFrame` on it is not a no-op — it issues GPU calls. -/
theorem C2_counterexample :
    Reachable mixedState ∧ mixedState.mContext = 0 ∧
    EGLRenderer.drawFrame mixedState ≠ [] :=
  ⟨mixedState_reachable, rfl, by decide⟩

/-- Claim C2 (amended): `drawFrame` is a no-op exactly when the display
handle is invalid; whenever the display handle is valid — including
reachable states whose context handle is invalid — it clears, binds the
shader program, draws the mesh and presents, each exactly once. -/
theorem C2_drawFrame_guard (s : RendererState) :
    (EGLRenderer.isInitialized s = false → EGLRenderer.drawFrame s = []) ∧
    (EGLRenderer.isInitialized s = true →
      EGLRenderer.drawFrame s =
        [Call.glClearColor, Call.glClear, Call.glUseProgram s.mProgramId,
         Call.glBindVertexArray s.mVAO, Call.glDrawArrays 3,
         Call.glBindVertexArray 0, Call.eglSwapBuffers s.mSurface] ∧
      (EGLRenderer.drawFrame s).count Call.glClear = 1 ∧
      (EGLRenderer.drawFrame s).count (Call.glUseProgram s.mProgramId) = 1 ∧
      (EGLRenderer.drawFrame s).count (Call.glDrawArrays 3) = 1 ∧
      (EGLRenderer.drawFrame s).count (Call.eglSwapBuffers s.mSurface) = 1)
    := by
  by_cases hd : s.mDisplay = 0 <;>
    simp [EGLRenderer.drawFrame, EGLRenderer.isInitialized,
      ShaderProgram.use, TriangleMesh.draw, hd, List.count_cons]

/-- Witness for C2 (amended), at the state left by a fully successful
initialize. -/
theorem C2_drawFrame_guard_witness :
    EGLRenderer.drawFrame ⟨1, 2, 3, 6, 7, 8⟩ =
      [Call.glClearColor, Call.glClear, Call.glUseProgram 6,
       Call.glBindVertexArray 7, Call.glDrawArrays 3,
       Call.glBindVertexArray 0, Call.eglSwapBuffers 2] :=
  ((C2_drawFrame_guard ⟨1, 2, 3, 6, 7, 8⟩).2 (by decide)).1

/-- Counterexample to claim C3: in the reachable state left by an
initialize whose context creation failed, `isInitialized()` returns true
although the context handle is invalid, so the instance is not in the Ready
state. -/
theorem C3_counterexample :
    Reachable mixedState ∧ EGLRenderer.isInitialized mixedState = true ∧
    mixedState.mContext = 0 :=
  ⟨mixedState_reachable, rfl, rfl⟩

/-- Claim C3 (amended): `isInitialized` returns true iff the display handle
alone is valid.  It is true after a fully successful initialize (where all
three handles are indeed valid) and false after cleanup, but it is not
equivalent to the Ready state, since a partially failed initialize leaves
it true with an invalid context. -/
theorem C3_isInitialized_display_only (s : RendererState) (env : EGLEnv) :
    (EGLRenderer.isInitialized s = true ↔ s.mDisplay ≠ 0) ∧
    EGLRenderer.isInitialized (EGLRenderer.cleanup s).1 = false ∧
    ((EGLRenderer.initializeFn env s).1 = true →
      EGLRenderer.isInitialized (EGLRenderer.initializeFn env s).2.1 = true ∧
      (EGLRenderer.initializeFn env s).2.1.mSurface ≠ 0 ∧
      (EGLRenderer.initializeFn env s).2.1.mContext ≠ 0) := by
  refine ⟨by simp [EGLRenderer.isInitialized], ?_, fun hsucc => ?_⟩
  · rw [cleanup_fst]
    simp [EGLRenderer.isInitialized]
  · by_cases hp : env.eglPhaseOk = true
    · have heq := initialize_egl_ok env s hp
      have hp2 := hp
      simp only [EGLEnv.eglPhaseOk, Bool.and_eq_true, bne_iff_ne, ne_eq]
        at hp2
      obtain ⟨⟨⟨⟨⟨hdd, hee⟩, hcn⟩, hss⟩, hcc⟩, hmm⟩ := hp2
      rw [heq] at hsucc ⊢
      cases hq : (ShaderProgram.initializeFn env.shader s.mProgramId).1 <;>
        simp_all [EGLRenderer.isInitialized]
    · have hf : env.eglPhaseOk = false := by
        cases hx : env.eglPhaseOk
        · rfl
        · exact absurd hx hp
      exact absurd hsucc (by simp [(initialize_egl_fail env s hf).1])

/-- Witness for C3 (amended), at the successful environment. -/
theorem C3_isInitialized_display_only_witness :
    EGLRenderer.isInitialized
      (EGLRenderer.initializeFn EGLEnv.good RendererState.start).2.1 = true :=
  ((C3_isInitialized_display_only RendererState.start EGLEnv.good).2.2
    (by decide)).1

/-- Counterexample to claim C7: in the reachable state left by an
initialize whose context creation failed, the display handle is valid but
cleanup performs no `eglDestroyContext` call at all, so teardown from a
valid-display state does not always perform the claimed
unbind / destroy-context / destroy-surface / terminate sequence. -/
theorem C7_counterexample :
    Reachable mixedState ∧ mixedState.mDisplay ≠ 0 ∧
    (∀ c, Call.eglDestroyContext c ∉ (EGLRenderer.cleanup mixedState).2) :=
  ⟨mixedState_reachable, by decide, by
    intro c
    simp [EGLRenderer.cleanup, TriangleMesh.cleanup, mixedState]⟩

/-- Claim C7 (amended): teardown of a renderer holding a valid display
unbinds first (passing no-surface / no-context to `eglMakeCurrent`), then
destroys the context if it is valid, then the surface if it is valid, then
terminates the display connection, in that order; afterwards all three
handles are at their invalid sentinels.  When all three handles are valid
this is exactly the four-call sequence the claim lists. -/
theorem C7_teardown_order (s : RendererState) (h : s.mDisplay ≠ 0) :
    ((EGLRenderer.cleanup s).2).filter Call.isTeardown =
      [Call.eglMakeCurrent 0 0] ++
        (if s.mContext ≠ 0 then [Call.eglDestroyContext s.mContext]
         else []) ++
        (if s.mSurface ≠ 0 then [Call.eglDestroySurface s.mSurface]
         else []) ++
        [Call.eglTerminate] ∧
    (EGLRenderer.cleanup s).1.mDisplay = 0 ∧
    (EGLRenderer.cleanup s).1.mSurface = 0 ∧
    (EGLRenderer.cleanup s).1.mContext = 0 := by
  rcases s with ⟨d, su, c, p, va, vb⟩
  simp only [ne_eq] at h
  by_cases hc : c = 0 <;> by_cases hs : su = 0 <;>
    by_cases hv : va = 0 <;> by_cases hb : vb = 0 <;>
      simp [EGLRenderer.cleanup, TriangleMesh.cleanup, Call.isTeardown, h,
        hc, hs, hv, hb]

/-- Witness for C7 (amended), at the all-valid state left by a successful
initialize: the full four-call teardown sequence. -/
theorem C7_teardown_order_witness :
    ((EGLRenderer.cleanup ⟨1, 2, 3, 6, 7, 8⟩).2).filter Call.isTeardown =
      [Call.eglMakeCurrent 0 0, Call.eglDestroyContext 3,
       Call.eglDestroySurface 2, Call.eglTerminate] ∧
    (EGLRenderer.cleanup ⟨1, 2, 3, 6, 7, 8⟩).1.mDisplay = 0 := by
  have h := C7_teardown_order ⟨1, 2, 3, 6, 7, 8⟩ (by decide)
  exact ⟨by simpa using h.1, h.2.1⟩

/-- A notification that is not a window-available with a present window
leaves an absent renderer absent. -/
theorem onAppCmd_none (e : AppEvent)
    (h : ¬(e.cmd = AppCmd.initWindow ∧ e.windowPresent = true)) :
    (NativeApp.onAppCmd e none).1 = none := by
  rcases e with ⟨c, w, env⟩
  cases c <;> cases w <;> simp_all [NativeApp.onAppCmd]

/-- Across any notification sequence with no window-available-with-window
event, an absent renderer stays absent. -/
theorem processCmds_none (events : List AppEvent)
    (h : ∀ e ∈ events,
      ¬(e.cmd = AppCmd.initWindow ∧ e.windowPresent = true)) :
    NativeApp.processCmds events none = none := by
  induction events with
  | nil => rfl
  | cons e rest ih =>
      have h1 := h e (List.mem_cons_self e rest)
      have h2 : ∀ x ∈ rest,
          ¬(x.cmd = AppCmd.initWindow ∧ x.windowPresent = true) :=
        fun x hx => h x (List.mem_cons_of_mem e hx)
      simp only [NativeApp.processCmds, List.foldl_cons]
      rw [onAppCmd_none e h1]
      exact ih h2

/-- A successful `EGLRenderer::initialize` implies every EGL-layer step
succeeded. -/
theorem initialize_true_phase (env : EGLEnv) (s : RendererState)
    (h : (EGLRenderer.initializeFn env s).1 = true) :
    env.eglPhaseOk = true := by
  cases hx : env.eglPhaseOk
  · exact absurd h (by simp [(initialize_egl_fail env s hx).1])
  · rfl

/-- Claim C8: a window-available notification with a present window handle
replaces the renderer with a freshly constructed and initialized one; a
window-lost notification with a renderer present runs its cleanup (the
cleanup trace opens the emitted calls) and destroys it, leaving the render
guard false so the loop body draws nothing; the guard stays false across
any notification sequence containing no window-available-with-window event;
a later window-available whose platform environment succeeds makes the
guard true again; and every other notification type is ignored. -/
theorem C8_window_lifecycle (e : AppEvent) (r : Option RendererState)
    (s : RendererState) (events : List AppEvent) :
    (e.cmd = AppCmd.initWindow → e.windowPresent = true →
      (NativeApp.onAppCmd e r).1 =
        some (EGLRenderer.initializeFn e.env RendererState.start).2.1) ∧
    (e.cmd = AppCmd.termWindow →
      (NativeApp.onAppCmd e (some s)).1 = none ∧
      (∃ t, (NativeApp.onAppCmd e (some s)).2 =
        (EGLRenderer.cleanup s).2 ++ t) ∧
      NativeApp.rendersFrame (NativeApp.onAppCmd e (some s)).1 = false ∧
      NativeApp.renderStep (NativeApp.onAppCmd e (some s)).1 = []) ∧
    ((∀ x ∈ events, ¬(x.cmd = AppCmd.initWindow ∧ x.windowPresent = true)) →
      NativeApp.processCmds events none = none ∧
      NativeApp.rendersFrame (NativeApp.processCmds events none) = false ∧
      NativeApp.renderStep (NativeApp.processCmds events none) = []) ∧
    (e.cmd = AppCmd.initWindow → e.windowPresent = true →
      (EGLRenderer.initializeFn e.env RendererState.start).1 = true →
      NativeApp.rendersFrame (NativeApp.onAppCmd e r).1 = true) ∧
    (e.cmd = AppCmd.other → NativeApp.onAppCmd e r = (r, [])) := by
  refine ⟨?_, ?_, ?_, ?_, ?_⟩
  · intro hc hw
    rcases e with ⟨c, w, env⟩
    cases hc
    cases hw
    cases r <;> simp [NativeApp.onAppCmd]
  · intro hc
    rcases e with ⟨c, w, env⟩
    cases hc
    refine ⟨by simp [NativeApp.onAppCmd], ⟨EGLRenderer.destruct
      (EGLRenderer.cleanup s).1, by simp [NativeApp.onAppCmd]⟩, ?_, ?_⟩ <;>
      simp [NativeApp.onAppCmd, NativeApp.rendersFrame, NativeApp.renderStep]
  · intro h
    have hn := processCmds_none events h
    rw [hn]
    exact ⟨rfl, rfl, rfl⟩
  · intro hc hw hsucc
    rcases e with ⟨c, w, env⟩
    cases hc
    cases hw
    have hp := initialize_true_phase env RendererState.start hsucc
    have hd : env.displayId ≠ 0 := by
      simp only [EGLEnv.eglPhaseOk, Bool.and_eq_true, bne_iff_ne, ne_eq]
        at hp
      exact hp.1.1.1.1.1
    cases r <;>
      simp [NativeApp.onAppCmd, NativeApp.rendersFrame,
        EGLRenderer.isInitialized, initialize_display_eq, hd]
  · intro hc
    rcases e with ⟨c, w, env⟩
    cases hc
    simp [NativeApp.onAppCmd]

/-- Witness for C8: a window-available event with a present window and an
all-success environment creates a renderer whose render guard holds. -/
theorem C8_window_lifecycle_witness :
    (NativeApp.onAppCmd ⟨AppCmd.initWindow, true, EGLEnv.good⟩ none).1 =
      some (EGLRenderer.initializeFn EGLEnv.good RendererState.start).2.1 ∧
    NativeApp.rendersFrame
      (NativeApp.onAppCmd ⟨AppCmd.initWindow, true, EGLEnv.good⟩ none).1 =
      true :=
  ⟨(C8_window_lifecycle ⟨AppCmd.initWindow, true, EGLEnv.good⟩ none
      RendererState.start []).1 rfl rfl,
   (C8_window_lifecycle ⟨AppCmd.initWindow, true, EGLEnv.good⟩ none
      RendererState.start []).2.2.2.1 rfl rfl (by decide)⟩
